import Mathlib

/-!
Verification development for the AI-assisted analysis gateway of the
CounselFlow backend (`backend/app/main.py`): the four `AIService` task
gateways (`analyze_contract`, `generate_contract_draft`,
`assess_legal_risk`, `legal_research`) and the HTTP call sites that
consume them.  Python dictionaries/JSON values are embedded as the
inductive `Json`; the external OpenAI chat-completion call is embedded
as an explicit `invoke` function passed to each gateway, returning
either the first completion's text or an exception message.
-/

/-- JSON values as produced by Python's `json.loads`: objects are
association lists in key order (duplicate keys collapsed, last value
wins, as Python dicts do); numbers are exact rationals. -/
inductive Json where
  | null : Json
  | bool (b : Bool) : Json
  | num (q : ℚ) : Json
  | str (s : String) : Json
  | arr (xs : List Json) : Json
  | obj (m : List (String × Json)) : Json

/-! ## Model of Python `json.loads` (strict JSON decoding) -/

/-- Whitespace accepted between JSON tokens. -/
def isJsonWs (c : Char) : Bool :=
  c = ' ' || c = '\t' || c = '\n' || c = '\r'

/-- Drop leading JSON whitespace. -/
def skipWs : List Char → List Char
  | c :: cs => if isJsonWs c then skipWs cs else c :: cs
  | [] => []

/-- Decimal digit test. -/
def isDigitChar (c : Char) : Bool := '0' ≤ c && c ≤ '9'

/-- Split a leading run of decimal digits from the input. -/
def takeDigits : List Char → List Char × List Char
  | c :: cs =>
    if isDigitChar c then
      let (ds, rest) := takeDigits cs
      (c :: ds, rest)
    else ([], c :: cs)
  | [] => ([], [])

/-- Numeric value of a digit run. -/
def digitsToNat (ds : List Char) : Nat :=
  ds.foldl (fun acc c => acc * 10 + (c.toNat - 48)) 0

/-- Value of one hexadecimal digit, `none` on a non-hex character. -/
def hexVal (c : Char) : Option Nat :=
  if '0' ≤ c && c ≤ '9' then some (c.toNat - 48)
  else if 'a' ≤ c && c ≤ 'f' then some (c.toNat - 87)
  else if 'A' ≤ c && c ≤ 'F' then some (c.toNat - 55)
  else none

/-- Value of a four-hex-digit `\uXXXX` escape body. -/
def hexNum4 (a b c d : Char) : Option Nat := do
  let x ← hexVal a
  let y ← hexVal b
  let z ← hexVal c
  let w ← hexVal d
  some (((x * 16 + y) * 16 + z) * 16 + w)

/-- Decode the body of a JSON string literal (after the opening quote),
returning the decoded characters and the input after the closing quote.
Follows Python `json.loads` in strict mode: raw control characters are
rejected, only the eight standard escapes and `\uXXXX` are accepted, and
a `\uXXXX` high surrogate followed by an escaped low surrogate combines
into one character.  (A lone surrogate, which Python keeps as a
surrogate code point, falls outside Lean `Char` and is decoded as
`Char.ofNat`'s fallback.)  The `Nat` argument is recursion fuel; every
step consumes at least one input character, so callers pass
`length + 1` and the fuel never runs out on real inputs. -/
def parseStringBody : Nat → List Char → Option (List Char × List Char)
  | 0, _ => none
  | _ + 1, [] => none
  | _ + 1, '"' :: rest => some ([], rest)
  | fuel + 1, '\\' :: 'u' :: a :: b :: c :: d :: rest =>
    match hexNum4 a b c d with
    | none => none
    | some n =>
      if 0xd800 ≤ n && n ≤ 0xdbff then
        match rest with
        | '\\' :: 'u' :: a2 :: b2 :: c2 :: d2 :: rest2 =>
          (match hexNum4 a2 b2 c2 d2 with
           | none => none
           | some n2 =>
             if 0xdc00 ≤ n2 && n2 ≤ 0xdfff then
               (parseStringBody fuel rest2).map fun (s, r) =>
                 (Char.ofNat (0x10000 + (n - 0xd800) * 0x400 + (n2 - 0xdc00)) :: s, r)
             else
               (parseStringBody fuel ('\\' :: 'u' :: a2 :: b2 :: c2 :: d2 :: rest2)).map
                 fun (s, r) => (Char.ofNat n :: s, r))
        | _ => (parseStringBody fuel rest).map fun (s, r) => (Char.ofNat n :: s, r)
      else
        (parseStringBody fuel rest).map fun (s, r) => (Char.ofNat n :: s, r)
  | fuel + 1, '\\' :: e :: rest =>
    (match e with
     | '"' => some '"'
     | '\\' => some '\\'
     | '/' => some '/'
     | 'b' => some (Char.ofNat 8)
     | 'f' => some (Char.ofNat 12)
     | 'n' => some '\n'
     | 'r' => some '\r'
     | 't' => some '\t'
     | _ => none).bind fun ch =>
      (parseStringBody fuel rest).map fun (s, r) => (ch :: s, r)
  | fuel + 1, c :: rest =>
    if c.toNat < 0x20 then none
    else (parseStringBody fuel rest).map fun (s, r) => (c :: s, r)

/-- Decode a JSON number (RFC 8259 grammar, as enforced by Python
`json.loads`): optional minus, integer part with no leading zero,
optional fraction, optional exponent.  The exact rational value is
returned together with the remaining input. -/
def parseNumberTok (cs : List Char) : Option (ℚ × List Char) := do
  let (neg, cs1) := match cs with
    | '-' :: t => (true, t)
    | _ => (false, cs)
  let (ds, rest) := takeDigits cs1
  if ds.isEmpty then none
  else if ds.length > 1 && ds.head? == some '0' then none
  else
    let ip : ℚ := (digitsToNat ds : ℚ)
    let (mant, rest2) ← (match rest with
      | '.' :: t =>
        let (fs, r) := takeDigits t
        if fs.isEmpty then none
        else some (ip + (digitsToNat fs : ℚ) / ((10 : ℚ) ^ fs.length), r)
      | _ => some (ip, rest) : Option (ℚ × List Char))
    let (val, rest3) ← (match rest2 with
      | 'e' :: t | 'E' :: t =>
        let (sgn, t1) : Int × List Char := match t with
          | '+' :: u => (1, u)
          | '-' :: u => (-1, u)
          | _ => (1, t)
        let (es, r) := takeDigits t1
        if es.isEmpty then none
        else
          let e : Int := sgn * (digitsToNat es : Int)
          some ((if 0 ≤ e then mant * (10 : ℚ) ^ e.toNat
                 else mant / (10 : ℚ) ^ (-e).toNat), r)
      | _ => some (mant, rest2) : Option (ℚ × List Char))
    some ((if neg then -val else val), rest3)

/-- Insert a parsed object member as Python dict construction does:
a repeated key keeps its first position but takes the later value. -/
def objInsert (m : List (String × Json)) (k : String) (v : Json) :
    List (String × Json) :=
  if m.any (fun p => p.1 == k) then
    m.map (fun p => if p.1 == k then (k, v) else p)
  else
    m ++ [(k, v)]

mutual

/-- Decode one JSON value from the input (fuel-indexed recursion; the
fuel only bounds nesting and is chosen large enough in `jsonLoads`). -/
def parseValue : Nat → List Char → Option (Json × List Char)
  | 0, _ => none
  | fuel + 1, cs =>
    match skipWs cs with
    | '{' :: rest =>
      (match skipWs rest with
       | '}' :: t => some (Json.obj [], t)
       | cs2 =>
         (parseObjItems fuel cs2).map fun (ps, r) =>
           (Json.obj (ps.foldl (fun m kv => objInsert m kv.1 kv.2) []), r))
    | '[' :: rest =>
      (match skipWs rest with
       | ']' :: t => some (Json.arr [], t)
       | cs2 => (parseArrItems fuel cs2).map fun (vs, r) => (Json.arr vs, r))
    | '"' :: rest =>
      (parseStringBody (rest.length + 1) rest).map fun (s, r) =>
        (Json.str (String.mk s), r)
    | 't' :: 'r' :: 'u' :: 'e' :: rest => some (Json.bool true, rest)
    | 'f' :: 'a' :: 'l' :: 's' :: 'e' :: rest => some (Json.bool false, rest)
    | 'n' :: 'u' :: 'l' :: 'l' :: rest => some (Json.null, rest)
    | cs1 => (parseNumberTok cs1).map fun (q, r) => (Json.num q, r)

/-- Decode the comma-separated members of a non-empty JSON array, up to
and including the closing bracket. -/
def parseArrItems : Nat → List Char → Option (List Json × List Char)
  | 0, _ => none
  | fuel + 1, cs => do
    let (v, rest) ← parseValue fuel cs
    match skipWs rest with
    | ',' :: t =>
      let (vs, r) ← parseArrItems fuel t
      some (v :: vs, r)
    | ']' :: t => some ([v], t)
    | _ => none

/-- Decode the comma-separated members of a non-empty JSON object, up to
and including the closing brace, as a list of key-value pairs in source
order (duplicates not yet collapsed). -/
def parseObjItems : Nat → List Char → Option (List (String × Json) × List Char)
  | 0, _ => none
  | fuel + 1, cs =>
    match skipWs cs with
    | '"' :: rest => do
      let (ks, r1) ← parseStringBody (rest.length + 1) rest
      match skipWs r1 with
      | ':' :: r2 => do
        let (v, r3) ← parseValue fuel r2
        match skipWs r3 with
        | ',' :: t =>
          let (ps, r4) ← parseObjItems fuel t
          some ((String.mk ks, v) :: ps, r4)
        | '}' :: t => some ([(String.mk ks, v)], t)
        | _ => none
      | _ => none
    | _ => none

end

/-- Model of Python `json.loads`: strict parse of the whole string as a
single JSON value with only whitespace around it; `none` models a raised
`json.JSONDecodeError`.  (Python's non-standard `NaN` / `Infinity`
extensions are not modelled.) -/
def jsonLoads (s : String) : Option Json :=
  match parseValue (2 * s.length + 2) s.data with
  | some (v, rest) => if (skipWs rest).isEmpty then some v else none
  | none => none

/-! ## Model of Python `json.dumps(v, indent=2)` (used in prompt building) -/

/-- Lowercase hexadecimal digit. -/
def hexDigit (n : Nat) : Char :=
  if n < 10 then Char.ofNat (48 + n) else Char.ofNat (87 + n % 16)

/-- A `\uXXXX` escape for a code unit. -/
def uEscape (n : Nat) : String :=
  "\\u" ++ String.mk [hexDigit (n / 4096 % 16), hexDigit (n / 256 % 16),
                      hexDigit (n / 16 % 16), hexDigit (n % 16)]

/-- Serialize one character of a JSON string as Python `json.dumps` does
with its default `ensure_ascii=True`: the short escapes, `\uXXXX` for
other characters outside printable ASCII (surrogate pairs beyond the
BMP), the character itself otherwise. -/
def escapeJsonChar (c : Char) : String :=
  if c = '"' then "\\\""
  else if c = '\\' then "\\\\"
  else if c = '\n' then "\\n"
  else if c = '\r' then "\\r"
  else if c = '\t' then "\\t"
  else if c.toNat = 8 then "\\b"
  else if c.toNat = 12 then "\\f"
  else if c.toNat < 0x20 || c.toNat > 0x7e then
    if c.toNat ≤ 0xffff then uEscape c.toNat
    else
      let n := c.toNat - 0x10000
      uEscape (0xd800 + n / 0x400) ++ uEscape (0xdc00 + n % 0x400)
  else String.singleton c

/-- Serialize a JSON string literal with its quotes. -/
def dumpString (s : String) : String :=
  "\"" ++ String.join (s.data.map escapeJsonChar) ++ "\""

/-- Serialize a JSON number.  Integers print exactly as Python does;
non-integral values (which cannot arise from the integer-valued request
bodies the routes pass in) fall back to Lean's rational printing rather
than Python float `repr`. -/
def dumpNum (q : ℚ) : String :=
  if q.den = 1 then toString q.num else toString q

/-- `n` spaces. -/
def indentSpaces (n : Nat) : String := String.mk (List.replicate n ' ')

mutual

/-- Model of Python `json.dumps(v, indent=2)` rendered at indentation
level `ind` (the top-level call uses `ind = 0`): each container member
on its own line indented two further spaces, `": "` after keys, `","`
between members, empty containers inline. -/
def dumpJson (ind : Nat) : Json → String
  | Json.null => "null"
  | Json.bool b => if b then "true" else "false"
  | Json.num q => dumpNum q
  | Json.str s => dumpString s
  | Json.arr [] => "[]"
  | Json.arr (x :: xs) =>
    "[\n" ++ dumpArrItems (ind + 2) x xs ++ "\n" ++ indentSpaces ind ++ "]"
  | Json.obj [] => "\x7b\x7d"
  | Json.obj ((k, v) :: ps) =>
    "\x7b\n" ++ dumpObjItems (ind + 2) k v ps ++ "\n" ++ indentSpaces ind ++ "\x7d"
  termination_by j => sizeOf j
  decreasing_by all_goals (simp_wf; try omega)

/-- Comma-and-newline separated array members at indentation `ind`. -/
def dumpArrItems (ind : Nat) (x : Json) : List Json → String
  | [] => indentSpaces ind ++ dumpJson ind x
  | y :: ys => indentSpaces ind ++ dumpJson ind x ++ ",\n" ++ dumpArrItems ind y ys
  termination_by xs => sizeOf x + sizeOf xs
  decreasing_by all_goals (simp_wf; try omega)

/-- Comma-and-newline separated object members at indentation `ind`. -/
def dumpObjItems (ind : Nat) (k : String) (v : Json) :
    List (String × Json) → String
  | [] => indentSpaces ind ++ dumpString k ++ ": " ++ dumpJson ind v
  | (l, w) :: ps =>
    indentSpaces ind ++ dumpString k ++ ": " ++ dumpJson ind v ++ ",\n" ++
      dumpObjItems ind l w ps
  termination_by ps => sizeOf v + sizeOf ps
  decreasing_by all_goals (simp_wf; try omega)

end

/-! ## The Model Invoker boundary -/

/-- One chat message as passed to `openai.ChatCompletion.acreate`. -/
structure ChatMessage where
  role : String
  content : String

/-- The request each gateway hands to `openai.ChatCompletion.acreate`:
configured model name, system persona plus user prompt, and the
task-specific temperature. -/
structure ModelRequest where
  model : String
  messages : List ChatMessage
  temperature : ℚ

/-- `Settings.OPENAI_MODEL` (its declared default). -/
def OPENAI_MODEL : String := "gpt-4"

/-- Outcome of the awaited chat-completion call: the first completion's
message content on success, or the raised exception's message (`str(e)`
as caught by the gateway) on failure. -/
inductive InvokeResult where
  | success (content : String) : InvokeResult
  | failure (error : String) : InvokeResult

namespace AIService

/-! ## The four Task Gateways (`class AIService` in `main.py`) -/

/-- Degraded default returned by `analyze_contract`'s `except` block. -/
def analyzeErrorDefault : Json :=
  Json.obj
    [("risk_score", Json.num 5),
     ("key_terms", Json.arr []),
     ("potential_issues", Json.arr [Json.str "Analysis error occurred"]),
     ("recommendations", Json.arr [Json.str "Manual review recommended"]),
     ("missing_clauses", Json.arr [])]

/-- Degraded default returned by `assess_legal_risk`'s `except` block. -/
def assessErrorDefault : Json :=
  Json.obj
    [("risk_level", Json.str "Medium"),
     ("risk_score", Json.num 5),
     ("risk_factors", Json.arr [Json.str "Assessment error occurred"]),
     ("mitigation_strategies", Json.arr [Json.str "Manual review recommended"]),
     ("recommended_actions", Json.arr [Json.str "Consult legal expert"])]

/-- Degraded default returned by `legal_research`'s `except` block. -/
def researchErrorDefault : Json :=
  Json.obj
    [("summary", Json.str "Research error occurred"),
     ("key_principles", Json.arr []),
     ("precedent_cases", Json.arr []),
     ("practical_implications", Json.arr []),
     ("recommendations", Json.arr [Json.str "Manual research recommended"])]

/-- The f-string prompt built by `analyze_contract` (12-space indented
lines exactly as in the triple-quoted literal). -/
def analyzePrompt (contract_text : String) : String :=
  "\n            Analyze the following contract for potential risks and key terms:\n            \n            Contract Text:\n            "
  ++ contract_text ++
  "\n            \n            Please provide:\n            1. Risk Assessment (score 1-10)\n            2. Key Terms Identified\n            3. Potential Issues\n            4. Recommendations\n            5. Missing Standard Clauses\n            \n            Format response as JSON with the following structure:\n            \x7b\n                \"risk_score\": <number>,\n                \"key_terms\": [\"term1\", \"term2\"],\n                \"potential_issues\": [\"issue1\", \"issue2\"],\n                \"recommendations\": [\"rec1\", \"rec2\"],\n                \"missing_clauses\": [\"clause1\", \"clause2\"]\n            \x7d\n            "

/-- The chat-completion request `analyze_contract` makes. -/
def analyzeRequest (contract_text : String) : ModelRequest :=
  ⟨OPENAI_MODEL,
   [⟨"system", "You are a legal AI assistant specialized in contract analysis."⟩,
    ⟨"user", analyzePrompt contract_text⟩],
   0.1⟩

/-- `AIService.analyze_contract`: prompt → model call at temperature 0.1
→ `json.loads` of the first completion; the surrounding `try` turns any
exception (model call or parse) into the fixed degraded dict. -/
def analyze_contract (invoke : ModelRequest → InvokeResult)
    (contract_text : String) : Json :=
  match invoke (analyzeRequest contract_text) with
  | InvokeResult.success content =>
    match jsonLoads content with
    | some j => j
    | none => analyzeErrorDefault
  | InvokeResult.failure _ => analyzeErrorDefault

/-- The f-string prompt built by `generate_contract_draft`, with
`', '.join(parties)` and `json.dumps(key_terms, indent=2)` spliced in. -/
def draftPrompt (contract_type : String) (parties : List String)
    (key_terms : List (String × Json)) : String :=
  "\n            Generate a professional " ++ contract_type ++
  " contract draft with the following details:\n            \n            Parties: "
  ++ String.intercalate ", " parties ++
  "\n            Key Terms: " ++ dumpJson 0 (Json.obj key_terms) ++
  "\n            \n            Include standard clauses for:\n            - Definitions\n            - Scope of Work/Services\n            - Payment Terms\n            - Termination\n            - Confidentiality\n            - Governing Law\n            - Dispute Resolution\n            \n            Format as a professional legal document.\n            "

/-- The chat-completion request `generate_contract_draft` makes. -/
def draftRequest (contract_type : String) (parties : List String)
    (key_terms : List (String × Json)) : ModelRequest :=
  ⟨OPENAI_MODEL,
   [⟨"system", "You are a legal AI assistant specialized in contract drafting."⟩,
    ⟨"user", draftPrompt contract_type parties key_terms⟩],
   0.2⟩

/-- `AIService.generate_contract_draft`: prompt → model call at
temperature 0.2 → the completion text verbatim (no JSON parse); any
exception yields the interpolated error string. -/
def generate_contract_draft (invoke : ModelRequest → InvokeResult)
    (contract_type : String) (parties : List String)
    (key_terms : List (String × Json)) : String :=
  match invoke (draftRequest contract_type parties key_terms) with
  | InvokeResult.success content => content
  | InvokeResult.failure e => "Error generating contract draft: " ++ e

/-- The f-string prompt built by `assess_legal_risk`, with the
description and `json.dumps(context, indent=2)` spliced in. -/
def assessPrompt (description : String) (context : List (String × Json)) :
    String :=
  "\n            Assess the legal risk for the following situation:\n            \n            Description: "
  ++ description ++
  "\n            Context: " ++ dumpJson 0 (Json.obj context) ++
  "\n            \n            Provide:\n            1. Risk Level (Low, Medium, High, Critical)\n            2. Risk Score (1-10)\n            3. Risk Factors\n            4. Mitigation Strategies\n            5. Recommended Actions\n            \n            Format as JSON:\n            \x7b\n                \"risk_level\": \"<level>\",\n                \"risk_score\": <number>,\n                \"risk_factors\": [\"factor1\", \"factor2\"],\n                \"mitigation_strategies\": [\"strategy1\", \"strategy2\"],\n                \"recommended_actions\": [\"action1\", \"action2\"]\n            \x7d\n            "

/-- The chat-completion request `assess_legal_risk` makes. -/
def assessRequest (description : String) (context : List (String × Json)) :
    ModelRequest :=
  ⟨OPENAI_MODEL,
   [⟨"system", "You are a legal risk assessment AI assistant."⟩,
    ⟨"user", assessPrompt description context⟩],
   0.1⟩

/-- `AIService.assess_legal_risk`: prompt → model call at temperature
0.1 → `json.loads` of the first completion; any exception yields the
fixed degraded dict. -/
def assess_legal_risk (invoke : ModelRequest → InvokeResult)
    (description : String) (context : List (String × Json)) : Json :=
  match invoke (assessRequest description context) with
  | InvokeResult.success content =>
    match jsonLoads content with
    | some j => j
    | none => assessErrorDefault
  | InvokeResult.failure _ => assessErrorDefault

/-- The f-string prompt built by `legal_research`. -/
def researchPrompt (query : String) : String :=
  "\n            Conduct legal research on the following query:\n            \n            Query: "
  ++ query ++
  "\n            \n            Provide:\n            1. Summary of relevant law\n            2. Key legal principles\n            3. Precedent cases (if applicable)\n            4. Practical implications\n            5. Recommendations\n            \n            Format as JSON:\n            \x7b\n                \"summary\": \"<summary>\",\n                \"key_principles\": [\"principle1\", \"principle2\"],\n                \"precedent_cases\": [\"case1\", \"case2\"],\n                \"practical_implications\": [\"implication1\", \"implication2\"],\n                \"recommendations\": [\"rec1\", \"rec2\"]\n            \x7d\n            "

/-- The chat-completion request `legal_research` makes. -/
def researchRequest (query : String) : ModelRequest :=
  ⟨OPENAI_MODEL,
   [⟨"system", "You are a legal research AI assistant."⟩,
    ⟨"user", researchPrompt query⟩],
   0.1⟩

/-- `AIService.legal_research`: prompt → model call at temperature 0.1
→ `json.loads` of the first completion; any exception yields the fixed
degraded dict. -/
def legal_research (invoke : ModelRequest → InvokeResult)
    (query : String) : Json :=
  match invoke (researchRequest query) with
  | InvokeResult.success content =>
    match jsonLoads content with
    | some j => j
    | none => researchErrorDefault
  | InvokeResult.failure _ => researchErrorDefault

end AIService

/-! ## HTTP call sites (route handlers in `main.py`) -/

/-- Python `dict.get(k, default)` on a parsed JSON object. -/
def dictGet (m : List (String × Json)) (k : String) (dflt : Json) : Json :=
  match m.lookup k with
  | some v => v
  | none => dflt

/-- ASCII whitespace as trimmed from numeric strings. -/
def isSpaceChar (c : Char) : Bool :=
  c = ' ' || c = '\t' || c = '\n' || c = '\r' || c.toNat = 11 || c.toNat = 12

/-- Pydantic lax coercion of a string to an `int` field (pydantic v2,
as the `pydantic_settings` import fixes the major version): surrounding
whitespace is trimmed, an optional sign precedes decimal digits.
(Exotic accepted spellings — digit-separator underscores, float-form
integer strings like "1.0" — are outside the model.) -/
def parseIntLax (s : String) : Option Int :=
  let t := ((s.data.dropWhile isSpaceChar).reverse.dropWhile isSpaceChar).reverse
  let (neg, ds) : Bool × List Char :=
    match t with
    | '+' :: r => (false, r)
    | '-' :: r => (true, r)
    | r => (false, r)
  if ds.isEmpty || !ds.all isDigitChar then none
  else
    let n : Int := digitsToNat ds
    some (if neg then -n else n)

/-- Pydantic v2 lax validation of an `int` model field against a
JSON-decoded value: integral numbers pass (a Python int, or a float
with no fractional part, both of which the embedding renders as a
rational with denominator 1), integer strings are coerced, booleans and
everything else fail. -/
def validateIntField : Json → Option Int
  | Json.num q => if q.den = 1 then some q.num else none
  | Json.str s => parseIntLax s
  | _ => none

/-- Pydantic v2 lax validation of a `List[str]` model field against a
JSON-decoded value: a list whose members are all strings passes
unchanged; a non-list, or a list with a non-string member, fails (v2
does not coerce numbers to strings). -/
def validateStrListField : Json → Option (List String)
  | Json.arr xs =>
    xs.mapM (fun x =>
      match x with
      | Json.str s => some s
      | _ => none)
  | _ => none

/-- Construction of the `ContractAnalysisResponse` pydantic model from
the five field values the route passes: each field is validated
(`risk_score: int`, the rest `List[str]`); `none` models a raised
`ValidationError`.  The validated response is rendered as the JSON
mapping of its five fields. -/
def contractAnalysisResponse (risk_score key_terms potential_issues
    recommendations missing_clauses : Json) : Option Json := do
  let rs ← validateIntField risk_score
  let kt ← validateStrListField key_terms
  let po ← validateStrListField potential_issues
  let rc ← validateStrListField recommendations
  let mc ← validateStrListField missing_clauses
  some (Json.obj
    [("risk_score", Json.num (rs : ℚ)),
     ("key_terms", Json.arr (kt.map Json.str)),
     ("potential_issues", Json.arr (po.map Json.str)),
     ("recommendations", Json.arr (rc.map Json.str)),
     ("missing_clauses", Json.arr (mc.map Json.str))])

namespace Routes

/-- The `POST /api/v1/ai/analyze-contract` handler after auth: calls the
gateway, reads the five fields with `analysis.get(...)` per-field
defaults, and constructs `ContractAnalysisResponse` from them.  The
handler's `except` converts any exception to an HTTP 500, modelled as
`none`: a gateway result that is not a dict (`.get` raises
`AttributeError`), or field values rejected by pydantic validation
(`ValidationError`). -/
def analyze_contract (invoke : ModelRequest → InvokeResult)
    (contract_text : String) : Option Json :=
  match AIService.analyze_contract invoke contract_text with
  | Json.obj m =>
    contractAnalysisResponse
      (dictGet m "risk_score" (Json.num 5))
      (dictGet m "key_terms" (Json.arr []))
      (dictGet m "potential_issues" (Json.arr []))
      (dictGet m "recommendations" (Json.arr []))
      (dictGet m "missing_clauses" (Json.arr []))
  | _ => none

/-- The `POST /api/v1/ai/assess-risk` handler after auth: normalizes a
falsy `context` (absent/`None`, or the empty dict, via Python's
`context or \x7b\x7d`) to the empty dict, calls the gateway, and wraps
the result with the assessment timestamp (`assessed_at` is wall-clock
`datetime.utcnow()`, passed here explicitly as `now`). -/
def assess_risk (invoke : ModelRequest → InvokeResult) (description : String)
    (context : Option (List (String × Json))) (now : String) : Json :=
  let ctx : List (String × Json) :=
    match context with
    | some c => if c.isEmpty then [] else c
    | none => []
  Json.obj
    [("risk_assessment", AIService.assess_legal_risk invoke description ctx),
     ("assessed_at", Json.str now)]

end Routes

/-! ## Success schema shapes (the §4.4 table of the specification) -/

/-- Is the value a JSON string? -/
def isStrVal : Json → Bool
  | Json.str _ => true
  | _ => false

/-- Is the value a JSON array of strings? -/
def isStrArr : Json → Bool
  | Json.arr xs => xs.all isStrVal
  | _ => false

/-- Is the value an integral JSON number? -/
def isIntNum : Json → Bool
  | Json.num q => q.den == 1
  | _ => false

/-- Does key `k` map to a value satisfying `p`? -/
def hasField (m : List (String × Json)) (k : String) (p : Json → Bool) : Bool :=
  match m.lookup k with
  | some v => p v
  | none => false

/-- The AnalyzeContract success schema shape from the spec's §4.4 table:
an object with `risk_score:int` and four string-array fields. -/
def analyzeSchemaShape : Json → Bool
  | Json.obj m =>
    hasField m "risk_score" isIntNum &&
    hasField m "key_terms" isStrArr &&
    hasField m "potential_issues" isStrArr &&
    hasField m "recommendations" isStrArr &&
    hasField m "missing_clauses" isStrArr
  | _ => false

/-- The AssessRisk success schema shape from the spec's §4.4 table. -/
def assessSchemaShape : Json → Bool
  | Json.obj m =>
    hasField m "risk_level" (fun v =>
      match v with
      | Json.str s => s == "Low" || s == "Medium" || s == "High" || s == "Critical"
      | _ => false) &&
    hasField m "risk_score" isIntNum &&
    hasField m "risk_factors" isStrArr &&
    hasField m "mitigation_strategies" isStrArr &&
    hasField m "recommended_actions" isStrArr
  | _ => false

/-- The Research success schema shape from the spec's §4.4 table. -/
def researchSchemaShape : Json → Bool
  | Json.obj m =>
    hasField m "summary" isStrVal &&
    hasField m "key_principles" isStrArr &&
    hasField m "precedent_cases" isStrArr &&
    hasField m "practical_implications" isStrArr &&
    hasField m "recommendations" isStrArr
  | _ => false

/-- The Research degraded default as the spec's §4.4 table words it:
`summary="Research error occurred"`, every remaining field an empty
list.  Stated from the spec for comparison with the code's
`AIService.researchErrorDefault`. -/
def specResearchDegraded : Json :=
  Json.obj
    [("summary", Json.str "Research error occurred"),
     ("key_principles", Json.arr []),
     ("precedent_cases", Json.arr []),
     ("practical_implications", Json.arr []),
     ("recommendations", Json.arr [])]

set_option maxRecDepth 10000

/-! ## Concrete values used in witnesses -/

/-- The AnalyzeContract model-stub reply from the spec's example
scenario (§8). -/
def exampleReply : String :=
  "\x7b\"risk_score\":7,\"key_terms\":[\"indemnification\"],\"potential_issues\":[\"one-sided termination\"],\"recommendations\":[\"add mutual termination\"],\"missing_clauses\":[\"force majeure\"]\x7d"

/-- The decoded mapping of `exampleReply`. -/
def exampleDecoded : Json :=
  Json.obj
    [("risk_score", Json.num 7),
     ("key_terms", Json.arr [Json.str "indemnification"]),
     ("potential_issues", Json.arr [Json.str "one-sided termination"]),
     ("recommendations", Json.arr [Json.str "add mutual termination"]),
     ("missing_clauses", Json.arr [Json.str "force majeure"])]

/-! ## Claims -/

/-- C1 (counterexample): the claim's Research degraded default ("every
remaining field an empty list") does not match the code.  With a
throwing Model Invoker, `legal_research`'s result differs from the
spec-worded default: its `recommendations` field is
`["Manual research recommended"]`, not `[]`. -/
theorem C1_counterexample :
    AIService.legal_research (fun _ => InvokeResult.failure "timeout") "q" ≠
      specResearchDegraded := by
  have h : AIService.legal_research (fun _ => InvokeResult.failure "timeout") "q" =
      AIService.researchErrorDefault := rfl
  rw [h]
  simp [AIService.researchErrorDefault, specResearchDegraded]

/-- C1 (amended): for every one of the four task kinds, if the Model
Invoker raises an error, the Task Gateway's result equals that task's
degraded default field-for-field — with the Research default as the code
defines it: `summary="Research error occurred"`, `key_principles`,
`precedent_cases` and `practical_implications` empty lists, and
`recommendations=["Manual research recommended"]`. -/
theorem C1_theorem (e contract_text contract_type description query : String)
    (parties : List String) (key_terms context : List (String × Json)) :
    AIService.analyze_contract (fun _ => InvokeResult.failure e) contract_text =
      Json.obj
        [("risk_score", Json.num 5),
         ("key_terms", Json.arr []),
         ("potential_issues", Json.arr [Json.str "Analysis error occurred"]),
         ("recommendations", Json.arr [Json.str "Manual review recommended"]),
         ("missing_clauses", Json.arr [])] ∧
    AIService.generate_contract_draft (fun _ => InvokeResult.failure e)
        contract_type parties key_terms =
      "Error generating contract draft: " ++ e ∧
    AIService.assess_legal_risk (fun _ => InvokeResult.failure e)
        description context =
      Json.obj
        [("risk_level", Json.str "Medium"),
         ("risk_score", Json.num 5),
         ("risk_factors", Json.arr [Json.str "Assessment error occurred"]),
         ("mitigation_strategies", Json.arr [Json.str "Manual review recommended"]),
         ("recommended_actions", Json.arr [Json.str "Consult legal expert"])] ∧
    AIService.legal_research (fun _ => InvokeResult.failure e) query =
      Json.obj
        [("summary", Json.str "Research error occurred"),
         ("key_principles", Json.arr []),
         ("precedent_cases", Json.arr []),
         ("practical_implications", Json.arr []),
         ("recommendations", Json.arr [Json.str "Manual research recommended"])] :=
  ⟨rfl, rfl, rfl, rfl⟩

/-- C2 (counterexample): the claim says the gateway always returns a
value conforming to the task's success schema shape; but when the model
reply is valid JSON of the wrong shape (here the bare number `3`),
`analyze_contract` returns it as-is, and it does not conform. -/
theorem C2_counterexample :
    AIService.analyze_contract (fun _ => InvokeResult.success "3") "contract" =
      Json.num 3 ∧
    analyzeSchemaShape (Json.num 3) = false :=
  ⟨rfl, rfl⟩

/-- C2 (amended): the Task Gateway never propagates an exception (each
gateway is a total function in the embedding) and always returns a
value; on every failure path (invoker error or parse failure) the result
is the task's degraded default, which conforms to the success schema
shape; on a successful parse the decoded reply is returned as-is (and
need not conform).  GenerateDraft always returns either the completion
text or its interpolated error string. -/
theorem C2_theorem (invoke : ModelRequest → InvokeResult)
    (contract_text contract_type description query : String)
    (parties : List String) (key_terms context : List (String × Json)) :
    ((∃ content, invoke (AIService.analyzeRequest contract_text) =
          InvokeResult.success content ∧
        jsonLoads content = some (AIService.analyze_contract invoke contract_text)) ∨
      AIService.analyze_contract invoke contract_text =
        AIService.analyzeErrorDefault) ∧
    ((∃ content, invoke (AIService.assessRequest description context) =
          InvokeResult.success content ∧
        jsonLoads content =
          some (AIService.assess_legal_risk invoke description context)) ∨
      AIService.assess_legal_risk invoke description context =
        AIService.assessErrorDefault) ∧
    ((∃ content, invoke (AIService.researchRequest query) =
          InvokeResult.success content ∧
        jsonLoads content = some (AIService.legal_research invoke query)) ∨
      AIService.legal_research invoke query =
        AIService.researchErrorDefault) ∧
    ((∃ content, invoke (AIService.draftRequest contract_type parties key_terms) =
          InvokeResult.success content ∧
        AIService.generate_contract_draft invoke contract_type parties key_terms =
          content) ∨
      (∃ e, invoke (AIService.draftRequest contract_type parties key_terms) =
          InvokeResult.failure e ∧
        AIService.generate_contract_draft invoke contract_type parties key_terms =
          "Error generating contract draft: " ++ e)) ∧
    analyzeSchemaShape AIService.analyzeErrorDefault = true ∧
    assessSchemaShape AIService.assessErrorDefault = true ∧
    researchSchemaShape AIService.researchErrorDefault = true := by
  refine ⟨?_, ?_, ?_, ?_, rfl, rfl, rfl⟩
  · cases hinv : invoke (AIService.analyzeRequest contract_text) with
    | success content =>
      cases hp : jsonLoads content with
      | some j =>
        exact Or.inl ⟨content, rfl,
          by simp [AIService.analyze_contract, hinv, hp]⟩
      | none =>
        exact Or.inr (by simp [AIService.analyze_contract, hinv, hp])
    | failure e => exact Or.inr (by simp [AIService.analyze_contract, hinv])
  · cases hinv : invoke (AIService.assessRequest description context) with
    | success content =>
      cases hp : jsonLoads content with
      | some j =>
        exact Or.inl ⟨content, rfl,
          by simp [AIService.assess_legal_risk, hinv, hp]⟩
      | none =>
        exact Or.inr (by simp [AIService.assess_legal_risk, hinv, hp])
    | failure e => exact Or.inr (by simp [AIService.assess_legal_risk, hinv])
  · cases hinv : invoke (AIService.researchRequest query) with
    | success content =>
      cases hp : jsonLoads content with
      | some j =>
        exact Or.inl ⟨content, rfl,
          by simp [AIService.legal_research, hinv, hp]⟩
      | none =>
        exact Or.inr (by simp [AIService.legal_research, hinv, hp])
    | failure e => exact Or.inr (by simp [AIService.legal_research, hinv])
  · cases hinv : invoke (AIService.draftRequest contract_type parties key_terms) with
    | success content =>
      exact Or.inl ⟨content, rfl,
        by simp [AIService.generate_contract_draft, hinv]⟩
    | failure e =>
      exact Or.inr ⟨e, rfl,
        by simp [AIService.generate_contract_draft, hinv]⟩

/-- C3: for every task kind, a Model Invoker reply that is syntactically
valid JSON is returned decoded and unchanged by the three JSON-schema
gateways (no reformatting, no added or removed fields); the GenerateDraft
gateway, whose documented success value is the raw completion, returns
the reply text verbatim. -/
theorem C3_theorem (invoke : ModelRequest → InvokeResult)
    (contract_text contract_type description query content : String)
    (parties : List String) (key_terms context : List (String × Json))
    (j : Json) (hparse : jsonLoads content = some j) :
    (invoke (AIService.analyzeRequest contract_text) =
        InvokeResult.success content →
      AIService.analyze_contract invoke contract_text = j) ∧
    (invoke (AIService.assessRequest description context) =
        InvokeResult.success content →
      AIService.assess_legal_risk invoke description context = j) ∧
    (invoke (AIService.researchRequest query) = InvokeResult.success content →
      AIService.legal_research invoke query = j) ∧
    (invoke (AIService.draftRequest contract_type parties key_terms) =
        InvokeResult.success content →
      AIService.generate_contract_draft invoke contract_type parties key_terms =
        content) := by
  refine ⟨fun hinv => ?_, fun hinv => ?_, fun hinv => ?_, fun hinv => ?_⟩
  · simp [AIService.analyze_contract, hinv, hparse]
  · simp [AIService.assess_legal_risk, hinv, hparse]
  · simp [AIService.legal_research, hinv, hparse]
  · simp [AIService.generate_contract_draft, hinv]

/-- C3 (witness): the spec's example scenario — an AnalyzeContract stub
returning the example JSON yields exactly that mapping; the same reply
fed to the other gateways decodes identically (verbatim for
GenerateDraft). -/
theorem C3_witness :
    AIService.analyze_contract (fun _ => InvokeResult.success exampleReply)
      "This Agreement ..." = exampleDecoded ∧
    AIService.assess_legal_risk (fun _ => InvokeResult.success exampleReply)
      "d" [] = exampleDecoded ∧
    AIService.legal_research (fun _ => InvokeResult.success exampleReply)
      "q" = exampleDecoded ∧
    AIService.generate_contract_draft (fun _ => InvokeResult.success exampleReply)
      "NDA" ["Acme", "Beta"] [] = exampleReply := by
  have h := C3_theorem (fun _ => InvokeResult.success exampleReply)
    "This Agreement ..." "NDA" "d" "q" exampleReply ["Acme", "Beta"] [] []
    exampleDecoded (by rfl)
  exact ⟨h.1 rfl, h.2.1 rfl, h.2.2.1 rfl, h.2.2.2 rfl⟩

/-- C4: GenerateDraft returns the model's completion text verbatim on
success — for every reply text, JSON or not, so no JSON parsing is
attempted — and on any failure returns the literal
`"Error generating contract draft: {error}"` string with the actual
error message interpolated. -/
theorem C4_theorem (invoke : ModelRequest → InvokeResult)
    (contract_type : String) (parties : List String)
    (key_terms : List (String × Json)) (content e : String) :
    (invoke (AIService.draftRequest contract_type parties key_terms) =
        InvokeResult.success content →
      AIService.generate_contract_draft invoke contract_type parties key_terms =
        content) ∧
    (invoke (AIService.draftRequest contract_type parties key_terms) =
        InvokeResult.failure e →
      AIService.generate_contract_draft invoke contract_type parties key_terms =
        "Error generating contract draft: " ++ e) := by
  refine ⟨fun hinv => ?_, fun hinv => ?_⟩
  · simp [AIService.generate_contract_draft, hinv]
  · simp [AIService.generate_contract_draft, hinv]

/-- C4 (witness): a non-JSON draft reply is returned verbatim, and a
timeout error produces the interpolated error string. -/
theorem C4_witness :
    AIService.generate_contract_draft
      (fun _ => InvokeResult.success "MUTUAL NONDISCLOSURE AGREEMENT ...")
      "NDA" ["Acme", "Beta"] [] = "MUTUAL NONDISCLOSURE AGREEMENT ..." ∧
    AIService.generate_contract_draft
      (fun _ => InvokeResult.failure "Request timed out")
      "NDA" ["Acme", "Beta"] [] =
      "Error generating contract draft: Request timed out" :=
  ⟨(C4_theorem (fun _ => InvokeResult.success "MUTUAL NONDISCLOSURE AGREEMENT ...")
      "NDA" ["Acme", "Beta"] [] "MUTUAL NONDISCLOSURE AGREEMENT ..." "e").1 rfl,
   (C4_theorem (fun _ => InvokeResult.failure "Request timed out")
      "NDA" ["Acme", "Beta"] [] "c" "Request timed out").2 rfl⟩

/-- C5: for each JSON-schema task kind, a model reply that is not valid
JSON makes the gateway return exactly that task's degraded default,
never a partial parse of the reply. -/
theorem C5_theorem (invoke : ModelRequest → InvokeResult)
    (contract_text description query content : String)
    (context : List (String × Json)) (hparse : jsonLoads content = none) :
    (invoke (AIService.analyzeRequest contract_text) =
        InvokeResult.success content →
      AIService.analyze_contract invoke contract_text =
        AIService.analyzeErrorDefault) ∧
    (invoke (AIService.assessRequest description context) =
        InvokeResult.success content →
      AIService.assess_legal_risk invoke description context =
        AIService.assessErrorDefault) ∧
    (invoke (AIService.researchRequest query) = InvokeResult.success content →
      AIService.legal_research invoke query =
        AIService.researchErrorDefault) := by
  refine ⟨fun hinv => ?_, fun hinv => ?_, fun hinv => ?_⟩
  · simp [AIService.analyze_contract, hinv, hparse]
  · simp [AIService.assess_legal_risk, hinv, hparse]
  · simp [AIService.legal_research, hinv, hparse]

/-- C5 (witness): the prose reply "I cannot answer that." is not JSON,
and all three JSON gateways degrade on it. -/
theorem C5_witness :
    AIService.analyze_contract
      (fun _ => InvokeResult.success "I cannot answer that.") "t" =
      AIService.analyzeErrorDefault ∧
    AIService.assess_legal_risk
      (fun _ => InvokeResult.success "I cannot answer that.") "d" [] =
      AIService.assessErrorDefault ∧
    AIService.legal_research
      (fun _ => InvokeResult.success "I cannot answer that.") "q" =
      AIService.researchErrorDefault := by
  have h := C5_theorem (fun _ => InvokeResult.success "I cannot answer that.")
    "t" "d" "q" "I cannot answer that." [] (by rfl)
  exact ⟨h.1 rfl, h.2.1 rfl, h.2.2 rfl⟩

/-- C6: the temperature passed to the model call is task-specific, not
global: 0.1 for AnalyzeContract, AssessRisk and Research, 0.2 for
GenerateDraft, for every input. -/
theorem C6_theorem (contract_text contract_type description query : String)
    (parties : List String) (key_terms context : List (String × Json)) :
    (AIService.analyzeRequest contract_text).temperature = 0.1 ∧
    (AIService.draftRequest contract_type parties key_terms).temperature = 0.2 ∧
    (AIService.assessRequest description context).temperature = 0.1 ∧
    (AIService.researchRequest query).temperature = 0.1 ∧
    (0.1 : ℚ) ≠ (0.2 : ℚ) :=
  ⟨rfl, rfl, rfl, rfl, by norm_num⟩

/-- C7: each Task Gateway call is stateless and independent — the
result is a function only of the call's own inputs and the model reply
to that call's own request: two invokers that agree on this call's
request (regardless of how they reply to anything else, such as other
concurrent calls' requests) produce identical results for all four
task kinds. -/
theorem C7_theorem (invoke1 invoke2 : ModelRequest → InvokeResult)
    (contract_text contract_type description query : String)
    (parties : List String) (key_terms context : List (String × Json))
    (h1 : invoke1 (AIService.analyzeRequest contract_text) =
      invoke2 (AIService.analyzeRequest contract_text))
    (h2 : invoke1 (AIService.draftRequest contract_type parties key_terms) =
      invoke2 (AIService.draftRequest contract_type parties key_terms))
    (h3 : invoke1 (AIService.assessRequest description context) =
      invoke2 (AIService.assessRequest description context))
    (h4 : invoke1 (AIService.researchRequest query) =
      invoke2 (AIService.researchRequest query)) :
    AIService.analyze_contract invoke1 contract_text =
      AIService.analyze_contract invoke2 contract_text ∧
    AIService.generate_contract_draft invoke1 contract_type parties key_terms =
      AIService.generate_contract_draft invoke2 contract_type parties key_terms ∧
    AIService.assess_legal_risk invoke1 description context =
      AIService.assess_legal_risk invoke2 description context ∧
    AIService.legal_research invoke1 query =
      AIService.legal_research invoke2 query := by
  refine ⟨?_, ?_, ?_, ?_⟩
  · simp [AIService.analyze_contract, h1]
  · simp [AIService.generate_contract_draft, h2]
  · simp [AIService.assess_legal_risk, h3]
  · simp [AIService.legal_research, h4]

/-- C7 (witness): two textually distinct invokers that reply alike give
equal results at a concrete input. -/
theorem C7_witness :
    AIService.analyze_contract (fun _ => InvokeResult.success "null") "t" =
      AIService.analyze_contract
        (fun r => if r.temperature = 0.3 then InvokeResult.failure "other call"
                  else InvokeResult.success "null") "t" ∧
    AIService.generate_contract_draft (fun _ => InvokeResult.success "null")
        "NDA" [] [] =
      AIService.generate_contract_draft
        (fun r => if r.temperature = 0.3 then InvokeResult.failure "other call"
                  else InvokeResult.success "null") "NDA" [] [] ∧
    AIService.assess_legal_risk (fun _ => InvokeResult.success "null") "d" [] =
      AIService.assess_legal_risk
        (fun r => if r.temperature = 0.3 then InvokeResult.failure "other call"
                  else InvokeResult.success "null") "d" [] ∧
    AIService.legal_research (fun _ => InvokeResult.success "null") "q" =
      AIService.legal_research
        (fun r => if r.temperature = 0.3 then InvokeResult.failure "other call"
                  else InvokeResult.success "null") "q" :=
  C7_theorem (fun _ => InvokeResult.success "null")
    (fun r => if r.temperature = 0.3 then InvokeResult.failure "other call"
              else InvokeResult.success "null")
    "t" "NDA" "d" "q" [] [] []
    (by norm_num [AIService.analyzeRequest])
    (by norm_num [AIService.draftRequest])
    (by norm_num [AIService.assessRequest])
    (by norm_num [AIService.researchRequest])

/-- C8: a model reply that parses as JSON but is not an object (a bare
number, string, list, ...) is returned as-is by the three JSON-schema
gateways — not the degraded default; only a parse failure or invoker
error triggers the degraded default, and no structural check is applied
to the decoded value. -/
theorem C8_theorem (invoke : ModelRequest → InvokeResult)
    (contract_text description query content : String)
    (context : List (String × Json)) (j : Json)
    (hparse : jsonLoads content = some j)
    (hnotobj : ∀ m, j ≠ Json.obj m) :
    (invoke (AIService.analyzeRequest contract_text) =
        InvokeResult.success content →
      AIService.analyze_contract invoke contract_text = j ∧
        AIService.analyze_contract invoke contract_text ≠
          AIService.analyzeErrorDefault) ∧
    (invoke (AIService.assessRequest description context) =
        InvokeResult.success content →
      AIService.assess_legal_risk invoke description context = j ∧
        AIService.assess_legal_risk invoke description context ≠
          AIService.assessErrorDefault) ∧
    (invoke (AIService.researchRequest query) = InvokeResult.success content →
      AIService.legal_research invoke query = j ∧
        AIService.legal_research invoke query ≠
          AIService.researchErrorDefault) := by
  refine ⟨fun hinv => ?_, fun hinv => ?_, fun hinv => ?_⟩
  · have hj : AIService.analyze_contract invoke contract_text = j := by
      simp [AIService.analyze_contract, hinv, hparse]
    exact ⟨hj, by rw [hj]; exact hnotobj _⟩
  · have hj : AIService.assess_legal_risk invoke description context = j := by
      simp [AIService.assess_legal_risk, hinv, hparse]
    exact ⟨hj, by rw [hj]; exact hnotobj _⟩
  · have hj : AIService.legal_research invoke query = j := by
      simp [AIService.legal_research, hinv, hparse]
    exact ⟨hj, by rw [hj]; exact hnotobj _⟩

/-- C8 (witness): the bare-number reply "3" decodes to `3` and all three
JSON gateways return it as-is instead of their degraded defaults. -/
theorem C8_witness :
    (AIService.analyze_contract (fun _ => InvokeResult.success "3") "t" =
        Json.num 3 ∧
      AIService.analyze_contract (fun _ => InvokeResult.success "3") "t" ≠
        AIService.analyzeErrorDefault) ∧
    (AIService.assess_legal_risk (fun _ => InvokeResult.success "3") "d" [] =
        Json.num 3 ∧
      AIService.assess_legal_risk (fun _ => InvokeResult.success "3") "d" [] ≠
        AIService.assessErrorDefault) ∧
    (AIService.legal_research (fun _ => InvokeResult.success "3") "q" =
        Json.num 3 ∧
      AIService.legal_research (fun _ => InvokeResult.success "3") "q" ≠
        AIService.researchErrorDefault) := by
  have h := C8_theorem (fun _ => InvokeResult.success "3") "t" "d" "q" "3" []
    (Json.num 3) (by rfl) (fun m hm => Json.noConfusion hm)
  exact ⟨h.1 rfl, h.2.1 rfl, h.2.2 rfl⟩

/-- C9 (counterexample): the claim says every gateway mapping yields a
five-field response, but the handler's `ContractAnalysisResponse`
construction validates field types: the valid-JSON mapping reply
`\x7b"risk_score":"high"\x7d` reaches the route as a mapping, pydantic
rejects the non-integer string, and the `except` turns the
`ValidationError` into HTTP 500 — no response is built. -/
theorem C9_counterexample :
    AIService.analyze_contract
        (fun _ => InvokeResult.success "\x7b\"risk_score\":\"high\"\x7d") "t" =
      Json.obj [("risk_score", Json.str "high")] ∧
    Routes.analyze_contract
        (fun _ => InvokeResult.success "\x7b\"risk_score\":\"high\"\x7d") "t" =
      none :=
  ⟨rfl, rfl⟩

/-- C9 (amended): at the analyze-contract route, any field missing from
the gateway's decoded mapping is filled with its per-field default
(`risk_score=5`, empty lists) before `ContractAnalysisResponse` is
constructed; construction validates the five values (pydantic v2 lax
mode), and a validation failure becomes HTTP 500.  For every gateway
mapping whose five defaulted values validate, the endpoint's response
contains every one of the five schema fields — the validated values,
with each missing field its default. -/
theorem C9_theorem (invoke : ModelRequest → InvokeResult)
    (contract_text : String) (m : List (String × Json))
    (n : Int) (kt po rc mc : List String)
    (h : AIService.analyze_contract invoke contract_text = Json.obj m)
    (hrs : validateIntField (dictGet m "risk_score" (Json.num 5)) = some n)
    (hkt : validateStrListField (dictGet m "key_terms" (Json.arr [])) = some kt)
    (hpo : validateStrListField (dictGet m "potential_issues" (Json.arr [])) =
      some po)
    (hrc : validateStrListField (dictGet m "recommendations" (Json.arr [])) =
      some rc)
    (hmc : validateStrListField (dictGet m "missing_clauses" (Json.arr [])) =
      some mc) :
    Routes.analyze_contract invoke contract_text =
      some (Json.obj
        [("risk_score", Json.num (n : ℚ)),
         ("key_terms", Json.arr (kt.map Json.str)),
         ("potential_issues", Json.arr (po.map Json.str)),
         ("recommendations", Json.arr (rc.map Json.str)),
         ("missing_clauses", Json.arr (mc.map Json.str))]) ∧
    (m.lookup "risk_score" = none → n = 5) ∧
    (m.lookup "key_terms" = none → kt = []) ∧
    (m.lookup "potential_issues" = none → po = []) ∧
    (m.lookup "recommendations" = none → rc = []) ∧
    (m.lookup "missing_clauses" = none → mc = []) := by
  refine ⟨?_, fun hm => ?_, fun hm => ?_, fun hm => ?_, fun hm => ?_,
    fun hm => ?_⟩
  · simp [Routes.analyze_contract, h, contractAnalysisResponse,
      hrs, hkt, hpo, hrc, hmc]
  · rw [show dictGet m "risk_score" (Json.num 5) = Json.num 5 from
      by simp [dictGet, hm]] at hrs
    rw [show validateIntField (Json.num 5) = some 5 from rfl] at hrs
    injection hrs with h5
    exact h5.symm
  · rw [show dictGet m "key_terms" (Json.arr []) = Json.arr [] from
      by simp [dictGet, hm]] at hkt
    rw [show validateStrListField (Json.arr []) = some [] from rfl] at hkt
    injection hkt with h5
    exact h5.symm
  · rw [show dictGet m "potential_issues" (Json.arr []) = Json.arr [] from
      by simp [dictGet, hm]] at hpo
    rw [show validateStrListField (Json.arr []) = some [] from rfl] at hpo
    injection hpo with h5
    exact h5.symm
  · rw [show dictGet m "recommendations" (Json.arr []) = Json.arr [] from
      by simp [dictGet, hm]] at hrc
    rw [show validateStrListField (Json.arr []) = some [] from rfl] at hrc
    injection hrc with h5
    exact h5.symm
  · rw [show dictGet m "missing_clauses" (Json.arr []) = Json.arr [] from
      by simp [dictGet, hm]] at hmc
    rw [show validateStrListField (Json.arr []) = some [] from rfl] at hmc
    injection hmc with h5
    exact h5.symm

/-- C9 (witness): with the model replying the mapping
`\x7b"risk_score":"7"\x7d`, pydantic coerces the integer string to 7
and the route fills the four absent list fields with their empty-list
defaults, yielding a response with all five schema fields. -/
theorem C9_witness :
    Routes.analyze_contract
        (fun _ => InvokeResult.success "\x7b\"risk_score\":\"7\"\x7d") "t" =
      some (Json.obj
        [("risk_score", Json.num ((7 : Int) : ℚ)),
         ("key_terms", Json.arr (([] : List String).map Json.str)),
         ("potential_issues", Json.arr (([] : List String).map Json.str)),
         ("recommendations", Json.arr (([] : List String).map Json.str)),
         ("missing_clauses", Json.arr (([] : List String).map Json.str))]) ∧
    ([("risk_score", Json.str "7")] : List (String × Json)).lookup
        "key_terms" = none ∧
    (([] : List String) = ([] : List String)) := by
  have h9 := C9_theorem
    (fun _ => InvokeResult.success "\x7b\"risk_score\":\"7\"\x7d") "t"
    [("risk_score", Json.str "7")] 7 [] [] [] []
    (by rfl) (by rfl) (by rfl) (by rfl) (by rfl) (by rfl)
  exact ⟨h9.1, rfl, h9.2.2.1 rfl⟩

/-- C10: the assess-risk route replaces an omitted/`None` context — and
likewise any falsy context, i.e. the empty mapping — by the empty
mapping before invoking the gateway, so `context=None` and `context` an
empty mapping give identical results for the same description, model
reply and timestamp. -/
theorem C10_theorem (invoke : ModelRequest → InvokeResult)
    (description now : String) (c : List (String × Json))
    (hc : c.isEmpty = true) :
    Routes.assess_risk invoke description none now =
      Routes.assess_risk invoke description (some c) now ∧
    Routes.assess_risk invoke description (some []) now =
      Routes.assess_risk invoke description none now := by
  cases c with
  | nil => exact ⟨rfl, rfl⟩
  | cons p l => exact absurd hc (by simp)

/-- C10 (witness): at a concrete call, `context=None` and `context=` the
empty mapping produce the same route result. -/
theorem C10_witness :
    Routes.assess_risk (fun _ => InvokeResult.failure "boom") "dispute" none
        "2026-10-12T00:00:00" =
      Routes.assess_risk (fun _ => InvokeResult.failure "boom") "dispute"
        (some []) "2026-10-12T00:00:00" ∧
    Routes.assess_risk (fun _ => InvokeResult.failure "boom") "dispute"
        (some []) "2026-10-12T00:00:00" =
      Routes.assess_risk (fun _ => InvokeResult.failure "boom") "dispute" none
        "2026-10-12T00:00:00" :=
  C10_theorem (fun _ => InvokeResult.failure "boom") "dispute"
    "2026-10-12T00:00:00" [] rfl
